import Mathlib

/-!
Verification development for the tahminn weather-CSV pipeline
(`full_pipeline.py`, `fetch_weather_csv.py`, `workflows/full_pipeline.py`).

The pipeline fetches daily weather rows over HTTP, renames and enriches the
columns, and writes two CSV files.  The definitions below are a shallow
embedding of the parts of the source the claims are about: calendar-date
arithmetic (`compute_dates`), the retrying HTTP session
(`_session_with_retry`), status checking (`raise_for_status`), the schema
check and the row transformation inside `fetch_days_csv`, and the
placeholder / CLI credential branch.
-/

namespace Tahminn

/-- Decidable equality for `Except`, so that concrete runs of the fallible
operations below can be checked by evaluation. -/
instance {ε α : Type} [DecidableEq ε] [DecidableEq α] : DecidableEq (Except ε α) := fun a b =>
  match a, b with
  | Except.ok x, Except.ok y =>
      if h : x = y then Decidable.isTrue (congrArg Except.ok h)
      else Decidable.isFalse (fun hc => h (Except.ok.inj hc))
  | Except.error x, Except.error y =>
      if h : x = y then Decidable.isTrue (congrArg Except.error h)
      else Decidable.isFalse (fun hc => h (Except.error.inj hc))
  | Except.ok _, Except.error _ => Decidable.isFalse (fun hc => Except.noConfusion hc)
  | Except.error _, Except.ok _ => Decidable.isFalse (fun hc => Except.noConfusion hc)

/-! ### Calendar dates

Python `datetime.date` values.  `date + timedelta(days=n)` is the n-fold
calendar successor; `date.weekday()` is `(toordinal + 6) % 7` (Monday = 0),
exactly as in the CPython `datetime` module. -/

/-- A proleptic-Gregorian calendar date, as in Python `datetime.date`. -/
structure CivilDate where
  year : Nat
  month : Nat
  day : Nat
deriving DecidableEq, Repr

/-- Gregorian leap-year rule, as used by `datetime` / `calendar.isleap`. -/
def isLeapYear (y : Nat) : Bool :=
  y % 4 == 0 && (y % 100 != 0 || y % 400 == 0)

/-- Number of days in a month of a given year. -/
def daysInMonth (y m : Nat) : Nat :=
  if m = 2 then (if isLeapYear y then 29 else 28)
  else if m = 4 ∨ m = 6 ∨ m = 9 ∨ m = 11 then 30
  else 31

/-- Validity of a `CivilDate` (what `datetime.date` would accept). -/
def CivilDate.valid (d : CivilDate) : Bool :=
  1 ≤ d.year && 1 ≤ d.month && d.month ≤ 12 && 1 ≤ d.day && d.day ≤ daysInMonth d.year d.month

/-- The calendar day after `d`, with month and year rollover. -/
def nextDay (d : CivilDate) : CivilDate :=
  if d.day < daysInMonth d.year d.month then ⟨d.year, d.month, d.day + 1⟩
  else if d.month < 12 then ⟨d.year, d.month + 1, 1⟩
  else ⟨d.year + 1, 1, 1⟩

/-- Python `d + timedelta(days=n)`: the calendar date `n` days after `d`. -/
def addDays (d : CivilDate) : Nat → CivilDate
  | 0 => d
  | n + 1 => addDays (nextDay d) n

/-- Days in the years strictly before year `y` (CPython `_days_before_year`). -/
def daysBeforeYear (y : Nat) : Nat :=
  let p := y - 1
  365 * p + p / 4 + p / 400 - p / 100

/-- Days in year `y` strictly before month `m` (CPython `_days_before_month`). -/
def daysBeforeMonth (y : Nat) : Nat → Nat
  | 0 => 0
  | 1 => 0
  | m + 2 => daysBeforeMonth y (m + 1) + daysInMonth y (m + 1)

/-- CPython `date.toordinal()`: day 1 is 0001-01-01. -/
def toordinal (d : CivilDate) : Nat :=
  daysBeforeYear d.year + daysBeforeMonth d.year d.month + d.day

/-- CPython `date.weekday()`: Monday = 0 … Sunday = 6. -/
def weekday (d : CivilDate) : Nat :=
  (toordinal d + 6) % 7

/-- Embedding of `compute_dates(tz_name)` from `workflows/full_pipeline.py`
(and the identical inline date block of the CLI `main`s).  The source takes
the local calendar date of the current instant in the zone
(`datetime.now(tz).date()`); here that already-localized date is the
argument, and the function returns `(tomorrow, week_end)` with
`tomorrow = today + 1 day` and `week_end = tomorrow + 6 days`. -/
def compute_dates (today_local : CivilDate) : CivilDate × CivilDate :=
  let tomorrow := addDays today_local 1
  let week_end := addDays tomorrow 6
  (tomorrow, week_end)

/-! ### Retrying HTTP session

`_session_with_retry(total=4, backoff=0.5, timeout=30)` in
`workflows/full_pipeline.py` mounts a `urllib3 Retry(total=4, read=4,
connect=4, backoff_factor=0.5, status_forcelist=(429,500,502,503,504),
allowed_methods=frozenset(["GET"]))` adapter.  urllib3 semantics: each
response whose status is in the forcelist decrements `total`; when `total`
would become negative the session raises (MaxRetryError, surfaced by
requests as RetryError), otherwise the request is re-sent.  So `total = 4`
permits 4 retries after the initial attempt: up to 5 requests. -/

/-- The `status_forcelist` tuple passed to `Retry`. -/
def status_forcelist : List Nat := [429, 500, 502, 503, 504]

/-- The configuration recorded by the `Retry` object of `_session_with_retry`. -/
structure RetryPolicy where
  total : Nat
  backoff_factor : Rat
  forcelist : List Nat
  allowed_methods : List String
deriving DecidableEq, Repr

/-- The `Retry` configuration built by `_session_with_retry()` with its
default arguments (`total=4, backoff=0.5`). -/
def sessionRetryPolicy : RetryPolicy :=
  { total := 4
    backoff_factor := 1 / 2
    forcelist := status_forcelist
    allowed_methods := ["GET"] }

/-- One GET through the retrying session.  `responses` is the sequence of
statuses the server would answer on successive attempts; `budget` is the
remaining `Retry.total`.  A forcelist status consumes one unit of budget
and retries; a status with no budget left (urllib3: `total` would become
negative) makes the session raise, modelled as `none`; any other status is
returned as the final response. -/
def retryGet (budget : Nat) : List Nat → Option Nat
  | [] => none
  | s :: rest =>
    if s ∈ status_forcelist then
      if budget = 0 then none else retryGet (budget - 1) rest
    else some s

/-- A GET through the session built by `_session_with_retry()`. -/
def sessionGet (responses : List Nat) : Option Nat :=
  retryGet sessionRetryPolicy.total responses

/-! ### Final-status check

In `fetch_days_csv`, `r.raise_for_status()` raises `requests.HTTPError`
exactly when the final status is 4xx or 5xx (400 ≤ status < 600); the
handler re-raises `RuntimeError(f"HTTP ... — ...preview")` with the status
code and `r.text[:400]`. -/

/-- The error object the spec calls `HttpError`: the status code and the
body preview carried by the `RuntimeError` raised in `fetch_days_csv`. -/
structure HttpErrorInfo where
  status : Nat
  preview : String
deriving DecidableEq, Repr

/-- Embedding of the `r.raise_for_status()` / `except requests.HTTPError`
block of `fetch_days_csv`: `requests` raises for 4xx and 5xx statuses
only, and the handler attaches `r.text[:400] if r.text else ""` — the
slice keeps the first 400 characters of the body. -/
def raiseForStatus (status : Nat) (body : String) : Except HttpErrorInfo Unit :=
  if 400 ≤ status ∧ status < 600 then
    .error ⟨status, if body = "" then "" else ⟨body.data.take 400⟩⟩
  else .ok ()

/-! ### Schema check

After `pd.read_csv`, `fetch_days_csv` computes
`miss = need - set(df.columns)` for the five required source columns and
raises `RuntimeError` (the `SchemaError` of the spec) naming `miss` and
`list(df.columns)` when `miss` is nonempty. -/

/-- The `need` set of `fetch_days_csv`. -/
def requiredColumns : List String :=
  ["datetime", "temp", "tempmin", "tempmax", "precip"]

/-- The required columns absent from a header (`need - set(df.columns)`). -/
def missingColumns (header : List String) : List String :=
  requiredColumns.filter (fun c => ¬ c ∈ header)

/-- The error the spec calls `SchemaError`: the missing required columns
and the columns actually present, both named in the raised message. -/
structure SchemaErrorInfo where
  missing : List String
  present : List String
deriving DecidableEq, Repr

/-- Embedding of the `miss = need - set(df.columns); if miss: raise` block
of `fetch_days_csv`, applied to the parsed header. -/
def checkSchema (header : List String) : Except SchemaErrorInfo Unit :=
  if missingColumns header = [] then .ok ()
  else .error ⟨missingColumns header, header⟩

/-! ### Row transformation

After the schema check, `fetch_days_csv` renames the columns, derives
`day` with `pd.to_datetime(df["date"], errors="coerce")` followed by
`.dt.weekday.map(TR_DAYS)`, derives `temp_range`, `is_rainy`, `is_hot`,
and selects the nine canonical columns in fixed order. -/

/-- The fixed Turkish weekday-name table `TR_DAYS` (Monday = 0).  A pandas
`.map` through a dict yields null for a key outside the table, hence the
`Option`. -/
def TR_DAYS : Nat → Option String
  | 0 => some "Pazartesi"
  | 1 => some "Salı"
  | 2 => some "Çarşamba"
  | 3 => some "Perşembe"
  | 4 => some "Cuma"
  | 5 => some "Cumartesi"
  | 6 => some "Pazar"
  | _ => none

/-- Splitting a character list at a separator (the list-level version of
splitting a string, used by the date parser and the CSV line model). -/
def splitOnChar (sep : Char) : List Char → List (List Char)
  | [] => [[]]
  | c :: rest =>
    let r := splitOnChar sep rest
    if c = sep then [] :: r
    else
      match r with
      | [] => [[c]]
      | g :: gs => (c :: g) :: gs

/-- Digit string to number, for the date-field parser. -/
def parseNatOpt (cs : List Char) : Option Nat :=
  if cs ≠ [] ∧ cs.all Char.isDigit then
    some (cs.foldl (fun acc c => acc * 10 + (c.toNat - 48)) 0)
  else none

/-- Embedding of `pd.to_datetime(..., errors="coerce")` on the ISO
`YYYY-MM-DD` date strings the timeline endpoint returns: an invalid or
unparseable date coerces to null (`none`) instead of raising. -/
def parseDate (s : String) : Option CivilDate :=
  match splitOnChar (Char.ofNat 45) s.data with
  | [ys, ms, ds] =>
    match parseNatOpt ys, parseNatOpt ms, parseNatOpt ds with
    | some y, some m, some d =>
      if (CivilDate.mk y m d).valid then some ⟨y, m, d⟩ else none
    | _, _, _ => none
  | _ => none

/-- One parsed row of the API response, keyed by the five required source
columns. -/
structure RawRow where
  datetime : String
  temp : Rat
  tempmin : Rat
  tempmax : Rat
  precip : Rat
deriving DecidableEq, Repr

/-- One row of the transformed table, in the final nine-column schema. -/
structure EnrichedRow where
  date : String
  tavg : Rat
  tmin : Rat
  tmax : Rat
  prcp : Rat
  temp_range : Rat
  day : Option String
  is_rainy : Nat
  is_hot : Nat
deriving DecidableEq, Repr

/-- Embedding of the transformation block of `fetch_days_csv`: the rename
`datetime→date, temp→tavg, tempmin→tmin, tempmax→tmax, precip→prcp`, the
weekday derivation with coerced dates going to null, and the derived
columns `temp_range`, `is_rainy`, `is_hot`. -/
def enrichRow (hot_threshold : Rat) (r : RawRow) : EnrichedRow :=
  { date := r.datetime
    tavg := r.temp
    tmin := r.tempmin
    tmax := r.tempmax
    prcp := r.precip
    temp_range := r.tempmax - r.tempmin
    day := (parseDate r.datetime).bind (fun d => TR_DAYS (weekday d))
    is_rainy := if r.precip > 0 then 1 else 0
    is_hot := if r.tempmax ≥ hot_threshold then 1 else 0 }

/-- The row-wise transformation of `fetch_days_csv` over the whole parsed
table (the pandas column operations act row-wise and keep the index, so
the table is a map over its rows). -/
def fetch_days_transform (hot_threshold : Rat) (rows : List RawRow) : List EnrichedRow :=
  rows.map (enrichRow hot_threshold)

/-- The final column selection of `fetch_days_csv` and the placeholder
header: the nine canonical columns in fixed order. -/
def columnNames : List String :=
  ["date", "tavg", "tmin", "tmax", "prcp", "temp_range", "day", "is_rainy", "is_hot"]

/-- A cell of the output table. -/
inductive CsvCell
  | str : String → CsvCell
  | num : Rat → CsvCell
  | nullable : Option String → CsvCell
deriving DecidableEq, Repr

/-- An `EnrichedRow` as the ordered (column, cell) list that the final
selection `df[[...]]` hands to `to_csv`. -/
def EnrichedRow.cells (r : EnrichedRow) : List (String × CsvCell) :=
  [("date", .str r.date), ("tavg", .num r.tavg), ("tmin", .num r.tmin),
   ("tmax", .num r.tmax), ("prcp", .num r.prcp), ("temp_range", .num r.temp_range),
   ("day", .nullable r.day), ("is_rainy", .num (r.is_rainy : Rat)),
   ("is_hot", .num (r.is_hot : Rat))]

/-! ### Placeholder files and the credential branch -/

/-- The header line written by `write_placeholder`, trailing newline
included. -/
def PLACEHOLDER_HEADER : String :=
  "date,tavg,tmin,tmax,prcp,temp_range,day,is_rainy,is_hot\n"

/-- Embedding of `write_placeholder(outdir)`: the two files it writes and
their full contents. -/
def write_placeholder (outdir : String) : List (String × String) :=
  [(outdir ++ "/yarin.csv", PLACEHOLDER_HEADER), (outdir ++ "/week.csv", PLACEHOLDER_HEADER)]

/-- The `CredentialError` of the spec: `run_cli` prints to stderr and
exits with status 1 when the key is missing and `--no-placeholder` is
set. -/
inductive CredentialError
  | missingApiKey
deriving DecidableEq, Repr

/-- Embedding of the credential branch at the top of `run_cli` (and of
the CLI `main`s): with an empty `VISUAL_CROSSING_API_KEY`, either fail
(`--no-placeholder`) or write the placeholder files and return 0.
`none` means the key is present and the run proceeds to the fetches. -/
def credential_branch (api_key : String) (no_placeholder : Bool) (outdir : String) :
    Option (Except CredentialError (List (String × String))) :=
  if api_key = "" then
    some (if no_placeholder then .error .missingApiKey else .ok (write_placeholder outdir))
  else none

/-- The lines of a written CSV file (each line of `to_csv` output ends
with a newline, so splitting drops a final empty piece).  Character 10 is
the newline. -/
def csvLines (contents : String) : List String :=
  ((splitOnChar (Char.ofNat 10) contents.data).map (fun cs => String.mk cs)).filter
    (fun l => l ≠ "")

/-! ### File writing as primitive steps

Each output file is written with `open(path, "w").write(header)` (or
`df.to_csv(path)`, which opens the same way): opening with mode `w`
truncates the file at once, and the write then fills in the contents.
These two primitives are the abort points of a write. -/

/-- Primitive filesystem steps of a CPython `open(path, "w").write(c)`. -/
inductive FsOp
  | truncate : String → FsOp
  | writeAll : String → String → FsOp
deriving DecidableEq, Repr

/-- Contents of the filesystem: path to file contents. -/
def Fs : Type := String → Option String

/-- Effect of one primitive step. -/
def applyOp (fs : Fs) : FsOp → Fs
  | .truncate p => fun q => if q = p then some "" else fs q
  | .writeAll p c => fun q => if q = p then some c else fs q

/-- Effect of a step sequence, first step first. -/
def runOps (fs : Fs) : List FsOp → Fs
  | [] => fs
  | op :: ops => runOps (applyOp fs op) ops

/-- The step sequence of `open(path, "w").write(contents)`. -/
def writeFileOps (path contents : String) : List FsOp :=
  [.truncate path, .writeAll path contents]

/-- The step sequence of `write_placeholder(outdir)`: yarin.csv then
week.csv, each truncate-then-write. -/
def write_placeholder_ops (outdir : String) : List FsOp :=
  writeFileOps (outdir ++ "/yarin.csv") PLACEHOLDER_HEADER ++
  writeFileOps (outdir ++ "/week.csv") PLACEHOLDER_HEADER

end Tahminn

namespace Tahminn

/-- C1: the date window is (today + 1 day, today + 7 days), and on the
concrete scenario of the spec (local date 2024-06-10 in America/Los_Angeles)
it is (2024-06-11, 2024-06-17). -/
theorem compute_dates_window (today : CivilDate) :
    compute_dates today = (addDays today 1, addDays (addDays today 1) 6) ∧
    compute_dates ⟨2024, 6, 10⟩ = (⟨2024, 6, 11⟩, ⟨2024, 6, 17⟩) := by
  exact ⟨rfl, by decide⟩

/-- Helper for the retry analysis: with remaining budget `b`, a run of `n`
forcelist responses followed by a 200 succeeds exactly when `n ≤ b`. -/
theorem retryGet_replicate_append (s : Nat) (hs : s ∈ status_forcelist) :
    ∀ n b, retryGet b (List.replicate n s ++ [200]) =
      if n ≤ b then some 200 else none := by
  intro n
  induction n with
  | zero =>
    intro b
    simp [retryGet, status_forcelist]
  | succ n ih =>
    intro b
    rw [List.replicate_succ, List.cons_append]
    cases b with
    | zero => simp [retryGet, hs]
    | succ k =>
      have hstep : retryGet (k + 1) (s :: (List.replicate n s ++ [200])) =
          retryGet k (List.replicate n s ++ [200]) := by
        simp [retryGet, hs]
      rw [hstep, ih k]
      simp [Nat.succ_le_succ_iff]

/-- C2 counterexample: the server answers 503 on the first four attempts
and 200 on the fifth; the session (Retry total = 4, i.e. four retries
after the initial attempt) still has budget for a fifth request, so the
fetch succeeds instead of raising. -/
theorem session_retry_counterexample :
    sessionGet [503, 503, 503, 503, 200] = some 200 := by decide

/-- C2 (amended): the session retries GETs on statuses
429, 500, 502, 503, 504 with backoff factor 0.5 and `Retry total = 4`,
which allows 4 retries after the initial attempt (up to 5 requests): a run
of `n` retryable statuses followed by a 200 succeeds iff `n ≤ 4`, so
503 three times then 200 succeeds, and only a fifth consecutive 503
exhausts the retries and makes the fetch raise. -/
theorem session_retry_spec (s : Nat) (hs : s ∈ status_forcelist) :
    sessionRetryPolicy.total = 4 ∧
    sessionRetryPolicy.backoff_factor = 1 / 2 ∧
    sessionRetryPolicy.forcelist = [429, 500, 502, 503, 504] ∧
    sessionRetryPolicy.allowed_methods = ["GET"] ∧
    ∀ n, sessionGet (List.replicate n s ++ [200]) =
      if n ≤ 4 then some 200 else none := by
  refine ⟨rfl, rfl, rfl, rfl, fun n => ?_⟩
  exact retryGet_replicate_append s hs n 4

/-- Witness for `session_retry_spec` at s = 503: three 503s then 200
succeeds, and five consecutive 503s exhaust the retries. -/
theorem session_retry_spec_witness :
    sessionGet (List.replicate 3 503 ++ [200]) = some 200 ∧
    sessionGet (List.replicate 5 503 ++ [200]) = none := by
  have h := (session_retry_spec 503 (by decide)).2.2.2.2
  exact ⟨by rw [h 3]; decide, by rw [h 5]; decide⟩

/-- C7 counterexample: a final status of 304 is not 2xx, yet
`raise_for_status()` only raises for 4xx/5xx, so the fetch does not fail
with `HttpError` there. -/
theorem raise_for_status_counterexample :
    raiseForStatus 304 "Not Modified" = Except.ok () ∧ ¬ (200 ≤ 304 ∧ 304 < 300) := by
  constructor
  · unfold raiseForStatus
    rw [if_neg (by omega)]
  · omega

/-- C7 (amended): when the final status is 4xx or 5xx the fetch fails with
an `HttpError` carrying the numeric status and the first 400 characters of
the body; when the final status is 2xx no `HttpError` is raised. -/
theorem raise_for_status_spec (status : Nat) (body : String) :
    (400 ≤ status → status < 600 →
      raiseForStatus status body = Except.error ⟨status, ⟨body.data.take 400⟩⟩) ∧
    (200 ≤ status → status < 300 → raiseForStatus status body = Except.ok ()) := by
  constructor
  · intro h1 h2
    unfold raiseForStatus
    rw [if_pos ⟨h1, h2⟩]
    by_cases hb : body = ""
    · subst hb
      have h0 : ("" : String) = ⟨(("" : String).data.take 400)⟩ := rfl
      rw [if_pos rfl, ← h0]
    · rw [if_neg hb]
  · intro h1 h2
    unfold raiseForStatus
    rw [if_neg (by omega)]

/-- Witness for `raise_for_status_spec` at a 503 with a body and a 204
with an empty body. -/
theorem raise_for_status_spec_witness :
    raiseForStatus 503 "oops" = Except.error ⟨503, ⟨("oops" : String).data.take 400⟩⟩ ∧
    raiseForStatus 204 "" = Except.ok () := by
  exact ⟨(raise_for_status_spec 503 "oops").1 (by decide) (by decide),
    (raise_for_status_spec 204 "").2 (by decide) (by decide)⟩

/-- C6: the schema check succeeds iff all five required source columns are
present, and on failure the error names exactly the missing required
columns and the columns actually present. -/
theorem check_schema_spec (header : List String) :
    (checkSchema header = Except.ok () ↔ ∀ c ∈ requiredColumns, c ∈ header) ∧
    (∀ e, checkSchema header = Except.error e →
      e.missing = requiredColumns.filter (fun c => ¬ c ∈ header) ∧
      e.missing ≠ [] ∧ e.present = header) := by
  have hiff : missingColumns header = [] ↔ ∀ c ∈ requiredColumns, c ∈ header := by
    simp [missingColumns, List.filter_eq_nil_iff]
  constructor
  · unfold checkSchema
    split
    · rename_i h
      exact ⟨fun _ => hiff.mp h, fun _ => rfl⟩
    · rename_i h
      constructor
      · intro hc; exact absurd hc (by simp)
      · intro hall; exact absurd (hiff.mpr hall) h
  · intro e he
    unfold checkSchema at he
    split at he
    · exact absurd he (by simp)
    · rename_i h
      cases he
      exact ⟨rfl, h, rfl⟩

/-- Witness for `check_schema_spec`: the full five-column header passes,
and the mocked header of the spec, missing `temp`, fails naming `temp`. -/
theorem check_schema_spec_witness :
    checkSchema ["datetime", "temp", "tempmin", "tempmax", "precip"] = Except.ok () ∧
    checkSchema ["datetime", "tempmin", "tempmax", "precip", "name"] =
      Except.error ⟨["temp"], ["datetime", "tempmin", "tempmax", "precip", "name"]⟩ := by
  refine ⟨(check_schema_spec _).1.mpr (by decide), ?_⟩
  have h := (check_schema_spec ["datetime", "tempmin", "tempmax", "precip", "name"]).2
    ⟨["temp"], ["datetime", "tempmin", "tempmax", "precip", "name"]⟩ (by decide)
  decide

/-- C3: in every transformed row, temp_range equals tmax minus tmin
exactly, and a row whose source has tempmin above tempmax keeps its
negative range uncorrected (here 5 - 12 = -7). -/
theorem temp_range_exact (thr : Rat) (r : RawRow) :
    (enrichRow thr r).temp_range = (enrichRow thr r).tmax - (enrichRow thr r).tmin ∧
    (enrichRow 30 ⟨"2024-06-11", 10, 12, 5, 0⟩).temp_range = -7 := by
  refine ⟨rfl, ?_⟩
  simp only [enrichRow]
  norm_num

/-- C4: is_rainy is 1 iff prcp is strictly positive and 0 iff it is not,
and is_hot is 1 iff tmax is at least the threshold and 0 iff it is below,
with the threshold compared in the same units. -/
theorem indicator_columns (thr : Rat) (r : RawRow) :
    ((enrichRow thr r).is_rainy = 1 ↔ 0 < (enrichRow thr r).prcp) ∧
    ((enrichRow thr r).is_rainy = 0 ↔ (enrichRow thr r).prcp ≤ 0) ∧
    ((enrichRow thr r).is_hot = 1 ↔ thr ≤ (enrichRow thr r).tmax) ∧
    ((enrichRow thr r).is_hot = 0 ↔ (enrichRow thr r).tmax < thr) := by
  simp only [enrichRow]
  refine ⟨?_, ?_, ?_, ?_⟩
  · split <;> rename_i h <;> simp [h]
  · split <;> rename_i h
    · simp [h.not_le]
    · simp [le_of_not_lt h]
  · split <;> rename_i h <;> simp [h]
  · split <;> rename_i h
    · simp [h.not_lt]
    · simp [lt_of_not_le h]

/-- C5: the derived day column is the weekday of the parsed date
(Monday = 0) mapped through the fixed seven-name table, so 2024-01-01, a
Monday, yields the Monday name; it depends only on the date field, so
repeated calls with the same date agree; a date that fails to parse gives
a null day and the row is still emitted (the transform is total). -/
theorem day_column_spec (thr : Rat) (r : RawRow) :
    (enrichRow thr ⟨"2024-01-01", 0, 0, 0, 0⟩).day = some "Pazartesi" ∧
    (∀ d, parseDate r.datetime = some d →
      (enrichRow thr r).day = TR_DAYS (weekday d)) ∧
    (parseDate r.datetime = none → (enrichRow thr r).day = none) ∧
    (∀ r2 : RawRow, r2.datetime = r.datetime →
      (enrichRow thr r2).day = (enrichRow thr r).day) ∧
    (∀ rows, r ∈ rows → enrichRow thr r ∈ fetch_days_transform thr rows) := by
  refine ⟨by simp only [enrichRow]; decide, ?_, ?_, ?_, ?_⟩
  · intro d hd; simp [enrichRow, hd]
  · intro h; simp [enrichRow, h]
  · intro r2 h2; simp [enrichRow, h2]
  · intro rows hmem; exact List.mem_map_of_mem _ hmem

/-- Witness for `day_column_spec` at threshold 30 and an unparseable
date: the known Monday maps to the Monday name, the bad date degrades to
a null day, and the bad-date row is still emitted. -/
theorem day_column_spec_witness :
    (enrichRow 30 ⟨"2024-01-01", 0, 0, 0, 0⟩).day = some "Pazartesi" ∧
    (enrichRow 30 ⟨"not-a-date", 1, 2, 3, 4⟩).day = none ∧
    enrichRow 30 ⟨"not-a-date", 1, 2, 3, 4⟩ ∈
      fetch_days_transform 30 [⟨"not-a-date", 1, 2, 3, 4⟩] := by
  have h := day_column_spec 30 ⟨"not-a-date", 1, 2, 3, 4⟩
  exact ⟨h.1, h.2.2.1 (by decide), h.2.2.2.2 _ (by simp)⟩

/-- C10: the transform emits exactly one output row per input row, and
every output row consists of exactly the nine canonical columns in the
fixed order. -/
theorem transform_shape (thr : Rat) (rows : List RawRow) :
    (fetch_days_transform thr rows).length = rows.length ∧
    ∀ er ∈ fetch_days_transform thr rows,
      (EnrichedRow.cells er).map Prod.fst = columnNames := by
  constructor
  · simp [fetch_days_transform]
  · intro er _
    rfl

/-- Witness for `transform_shape` on a one-row table. -/
theorem transform_shape_witness :
    (fetch_days_transform 30 [⟨"2024-06-11", 20, 15, 25, 0⟩]).length = 1 ∧
    (EnrichedRow.cells (enrichRow 30 ⟨"2024-06-11", 20, 15, 25, 0⟩)).map Prod.fst =
      columnNames := by
  have h := transform_shape 30 [⟨"2024-06-11", 20, 15, 25, 0⟩]
  exact ⟨h.1, h.2 _ (by simp [fetch_days_transform])⟩

/-- C8: with the credential absent and placeholder mode enabled the run
writes both yarin.csv and week.csv with exactly the nine-column header
and zero data rows and succeeds; with placeholder mode disabled it fails
with `CredentialError` and writes nothing. -/
theorem credential_branch_spec (outdir : String) :
    credential_branch "" false outdir =
      some (Except.ok [(outdir ++ "/yarin.csv", PLACEHOLDER_HEADER),
                       (outdir ++ "/week.csv", PLACEHOLDER_HEADER)]) ∧
    credential_branch "" true outdir = some (Except.error CredentialError.missingApiKey) ∧
    csvLines PLACEHOLDER_HEADER = [String.intercalate "," columnNames] ∧
    (csvLines PLACEHOLDER_HEADER).length = 1 ∧
    columnNames.length = 9 := by
  exact ⟨rfl, rfl, by decide, by decide, by decide⟩

/-- C9 counterexample: writing is not all-or-nothing.  `open(path, "w")`
truncates the destination before the contents are written, so a run
aborted between the two primitives of the first placeholder write leaves
an empty partial file at yarin.csv (the complete file would hold the
header). -/
theorem write_not_atomic_counterexample :
    runOps (fun _ => none) (List.take 1 (write_placeholder_ops "out")) "out/yarin.csv" =
      some "" ∧
    ("" : String) ≠ PLACEHOLDER_HEADER ∧
    (fun _ => none : Fs) "out/yarin.csv" = none := by
  exact ⟨rfl, by decide, rfl⟩

/-- C9 (amended): a write that runs to completion leaves the complete
contents, and once the yarin.csv write has completed (both its
primitives), every later abort point of the run still finds the complete
yarin.csv untouched; but a write is not atomic, so aborting between
truncate and write leaves a partial file. -/
theorem write_sequence_spec (outdir : String) (fs : Fs)
    (hne : outdir ++ "/yarin.csv" ≠ outdir ++ "/week.csv") :
    (∀ k, 2 ≤ k →
      runOps fs (List.take k (write_placeholder_ops outdir)) (outdir ++ "/yarin.csv") =
        some PLACEHOLDER_HEADER) ∧
    runOps fs (write_placeholder_ops outdir) (outdir ++ "/week.csv") =
      some PLACEHOLDER_HEADER := by
  constructor
  · intro k hk
    match k, hk with
    | 2, _ => simp [write_placeholder_ops, writeFileOps, runOps, applyOp]
    | 3, _ => simp [write_placeholder_ops, writeFileOps, runOps, applyOp, hne]
    | (n + 4), _ =>
      rw [List.take_of_length_le (by
        simp only [write_placeholder_ops, writeFileOps, List.length_append,
          List.length_cons, List.length_nil]
        omega)]
      simp [write_placeholder_ops, writeFileOps, runOps, applyOp, hne]
  · simp [write_placeholder_ops, writeFileOps, runOps, applyOp]

/-- Witness for `write_sequence_spec` at the default output directory:
after both primitives of the first write, yarin.csv is complete, and at
the end of the run week.csv is complete. -/
theorem write_sequence_spec_witness :
    runOps (fun _ => none)
      (List.take 2 (write_placeholder_ops "crime_prediction_data"))
      ("crime_prediction_data" ++ "/yarin.csv") = some PLACEHOLDER_HEADER ∧
    runOps (fun _ => none) (write_placeholder_ops "crime_prediction_data")
      ("crime_prediction_data" ++ "/week.csv") = some PLACEHOLDER_HEADER := by
  have h := write_sequence_spec "crime_prediction_data" (fun _ => none) (by decide)
  exact ⟨h.1 2 (by decide), h.2⟩

end Tahminn
